import Mathlib

/-!
Verification of the extraction/normalization pipeline of
`tools/compare/compare_report.py` (LLM FullTest comparison report generator).

The development shallowly embeds the three core components:
* the artifact scanner `find_fulltest_dirs`,
* the per-candidate parser `parse_fulltest_result` with its two markdown
  helpers `parse_function_call_from_md` and `parse_long_context_from_md`,
* the batch normalizer inside `create_radar_chart` (its score computation).

Python floats are modelled as rationals, Python ints as `Int`/`Nat`, file
contents past the regular-expression layer as structured values (a table row
is embedded as its six captured groups, a summary line as its three captured
groups), and the filesystem as an explicit structure recording which
artifacts exist and how decoding them turns out.
-/

namespace CompareReport

/-- Outcome of trying to read and decode one artifact file: the file may be
absent, present but failing to decode (`json.load` raising), or decoded. -/
inductive Decoded (α : Type) where
  | missing
  | malformed
  | ok (value : α)
deriving DecidableEq

/-- Whether the artifact file exists on disk (`Path.exists`), regardless of
whether it decodes. -/
def Decoded.fileExists {α : Type} : Decoded α → Bool
  | .missing => false
  | .malformed => true
  | .ok _ => true

/-- The success glyph captured by the table-row pattern `([✅❌])`:
either the positive variant (check mark) or the negative one (cross). -/
inductive Glyph where
  | check
  | cross
deriving DecidableEq

/-- One long-context table row as captured by the row pattern
`| N 字符 | N | d.dd | d.dd | d.dd | glyph |`: context length, input token
count, TTFT, latency, throughput, success glyph. -/
structure LcRowText where
  context_length : ℕ
  input_tokens : ℕ
  ttft_ms : ℚ
  latency_ms : ℚ
  throughput : ℚ
  glyph : Glyph
deriving DecidableEq

/-- The single-line summary as captured by its pattern: declared maximum
supported context, average TTFT, average throughput. -/
structure LcSummaryLine where
  max_supported : ℕ
  avg_ttft_ms : ℚ
  avg_throughput : ℚ
deriving DecidableEq

/-- The long-context section of the narrative report, past the regular
expressions: the table rows in document order and the optional summary line. -/
structure LcSection where
  rows : List LcRowText
  summary_line : Option LcSummaryLine
deriving DecidableEq

/-- The narrative report `full_test_report.md`, past the regular expressions:
whether the function-call support marker occurs, the three optional labeled
function-call fields, and the optional long-context section. -/
structure MdReport where
  fc_supported_marker : Bool := false
  fc_function_name : Option String := none
  fc_arguments : Option String := none
  fc_latency : Option ℚ := none
  lc_section : Option LcSection := none
deriving DecidableEq

/-- Decoded `benchmark/summary.json`: a key/value document where every key
may be absent (`dict.get` with a default fills the gaps). -/
structure BenchData where
  model : Option String := none
  started_at : Option String := none
  wall_time_ms : Option ℤ := none
  total_requests : Option ℤ := none
  success : Option ℤ := none
  failure : Option ℤ := none
  success_rate : Option ℚ := none
  avg_ttft_ms : Option ℚ := none
  p50_ttft_ms : Option ℤ := none
  p95_ttft_ms : Option ℤ := none
  p99_ttft_ms : Option ℤ := none
  avg_latency_ms : Option ℚ := none
  p50_latency_ms : Option ℤ := none
  p95_latency_ms : Option ℤ := none
  p99_latency_ms : Option ℤ := none
  token_throughput : Option ℚ := none
  rps : Option ℚ := none
  ttft_distribution_ms : Option (List ℤ) := none
  latency_distribution_ms : Option (List ℤ) := none
deriving DecidableEq

/-- Decoded `summary/performance_metrics.json`; `total_processing_time` is in
nanoseconds. -/
structure MetricsData where
  total_chunks : Option ℤ := none
  total_tokens : Option ℤ := none
  total_prompt_tokens : Option ℤ := none
  total_completion_tokens : Option ℤ := none
  total_processing_time : Option ℤ := none
  tokens_per_second : Option ℚ := none
deriving DecidableEq

/-- One candidate result directory: its name, whether it is a directory at
all, and the three artifacts under it (`benchmark/summary.json`,
`summary/performance_metrics.json`, `full_test_report.md`). -/
structure Entry where
  name : String
  isDir : Bool := true
  benchmark : Decoded BenchData := .missing
  metrics : Decoded MetricsData := .missing
  report : Option MdReport := none
deriving DecidableEq

/-- The scan root: whether it exists, and its children in directory-listing
order (arbitrary; the scanner sorts). -/
structure OutputDir where
  rootExists : Bool := true
  entries : List Entry := []
deriving DecidableEq

/-- One entry of the `results` list built by `parse_long_context_from_md`:
the six captured groups with the glyph decoded into a success Boolean. -/
structure LcRow where
  context_length : ℕ
  input_tokens : ℕ
  ttft_ms : ℚ
  latency_ms : ℚ
  throughput : ℚ
  success : Bool
deriving DecidableEq

set_option synthInstance.maxHeartbeats 1000000 in
/-- Mirrors the dataclass `FullTestResult` of the source: the canonical
record merged from all artifacts of one candidate. -/
structure FullTestResult where
  name : String := ""
  model : String := ""
  started_at : String := ""
  wall_time_ms : ℤ := 0
  total_requests : ℤ := 0
  success : ℤ := 0
  failure : ℤ := 0
  success_rate : ℚ := 0
  avg_ttft_ms : ℚ := 0
  p50_ttft_ms : ℤ := 0
  p95_ttft_ms : ℤ := 0
  p99_ttft_ms : ℤ := 0
  avg_latency_ms : ℚ := 0
  p50_latency_ms : ℤ := 0
  p95_latency_ms : ℤ := 0
  p99_latency_ms : ℤ := 0
  token_throughput : ℚ := 0
  rps : ℚ := 0
  ttft_distribution : List ℤ := []
  latency_distribution : List ℤ := []
  fc_supported : Bool := false
  fc_function_name : String := ""
  fc_arguments : String := ""
  fc_latency_ms : ℚ := 0
  lc_max_supported : ℕ := 0
  lc_avg_ttft_ms : ℚ := 0
  lc_avg_latency_ms : ℚ := 0
  lc_avg_throughput : ℚ := 0
  lc_results : List LcRow := []
  summary_total_chunks : ℤ := 0
  summary_total_tokens : ℤ := 0
  summary_prompt_tokens : ℤ := 0
  summary_completion_tokens : ℤ := 0
  summary_processing_time_sec : ℚ := 0
  summary_tokens_per_second : ℚ := 0
deriving DecidableEq

/-- Byte-wise list prefix test, helper for substring containment. -/
def charListIsPrefixOf : List Char → List Char → Bool
  | [], _ => true
  | _ :: _, [] => false
  | a :: as, b :: bs => a == b && charListIsPrefixOf as bs

/-- Substring containment on character lists, helper for Python's
`pattern in item.name`. -/
def charListContainsSub (needle : List Char) : List Char → Bool
  | [] => needle.isEmpty
  | b :: bs => charListIsPrefixOf needle (b :: bs) || charListContainsSub needle bs

/-- Python's `pattern in name` substring test on strings. -/
def strContainsSub (needle hay : String) : Bool :=
  charListContainsSub needle.data hay.data

/-- The filter condition of the scanner loop: `pattern is None or
pattern in item.name`. -/
def patternSelects (pattern : Option String) (name : String) : Bool :=
  match pattern with
  | none => true
  | some pat => strContainsSub pat name

/-- Whether the scanner keeps one directory entry: it is a directory, its
`benchmark/summary.json` exists, and the pattern filter selects its name. -/
def isFulltestDir (pattern : Option String) (item : Entry) : Bool :=
  item.isDir && item.benchmark.fileExists && patternSelects pattern item.name

/-- Embeds `find_fulltest_dirs`: on a missing root it prints an error and
returns the empty list; otherwise it returns the qualifying entries sorted by
name. The second component is the list of printed messages. -/
def find_fulltest_dirs (fs : OutputDir) (pattern : Option String) :
    List Entry × List String :=
  if fs.rootExists = false then
    ([], ["Error: Output directory does not exist"])
  else
    ((fs.entries.filter (isFulltestDir pattern)).mergeSort
      (fun a b => decide (a.name ≤ b.name)), [])

/-- Result dictionary of `parse_function_call_from_md`. -/
structure FcData where
  supported : Bool := false
  function_name : String := ""
  arguments : String := ""
  latency_ms : ℚ := 0
deriving DecidableEq

/-- Embeds `parse_function_call_from_md`: defaults when the file is absent;
when the support marker occurs, each labeled field is filled from its match
when present and left at its default otherwise. -/
def parse_function_call_from_md (md : Option MdReport) : FcData :=
  match md with
  | none => {}
  | some content =>
    if content.fc_supported_marker then
      { supported := true
        function_name := content.fc_function_name.getD ""
        arguments := content.fc_arguments.getD ""
        latency_ms := content.fc_latency.getD 0 }
    else
      {}

/-- Result dictionary of `parse_long_context_from_md`. -/
structure LcData where
  max_supported : ℕ := 0
  avg_ttft_ms : ℚ := 0
  avg_latency_ms : ℚ := 0
  avg_throughput : ℚ := 0
  results : List LcRow := []
deriving DecidableEq

/-- Whether one row's success glyph is the positive variant
(`match.group(6) == positive glyph`). -/
def LcRowText.isSuccess (t : LcRowText) : Bool :=
  decide (t.glyph = Glyph.check)

/-- The dict appended for one table row: the captured numbers plus the
decoded success Boolean. -/
def LcRowText.toRow (t : LcRowText) : LcRow :=
  { context_length := t.context_length
    input_tokens := t.input_tokens
    ttft_ms := t.ttft_ms
    latency_ms := t.latency_ms
    throughput := t.throughput
    success := t.isSuccess }

/-- Embeds `parse_long_context_from_md`: defaults when the file or the
long-context section is absent; otherwise the rows are collected in order,
the maximum supported context is folded over the successful rows, the
summary line, when matched, overwrites the maximum and supplies average TTFT
and throughput, and average latency is then computed from the successful
rows when there is at least one. -/
def parse_long_context_from_md (md : Option MdReport) : LcData :=
  match md with
  | none => {}
  | some content =>
    match content.lc_section with
    | none => {}
    | some sec =>
      let rows := sec.rows.map LcRowText.toRow
      let maxFromRows :=
        rows.foldl
          (fun acc row =>
            if row.success then max acc row.context_length else acc) 0
      let base : LcData := { max_supported := maxFromRows, results := rows }
      let withSummary :=
        match sec.summary_line with
        | some s =>
          { base with
              max_supported := s.max_supported
              avg_ttft_ms := s.avg_ttft_ms
              avg_throughput := s.avg_throughput }
        | none => base
      let successful_results := rows.filter (fun row => row.success)
      if successful_results.isEmpty then withSummary
      else
        { withSummary with
            avg_latency_ms :=
              (successful_results.map (fun row => row.latency_ms)).sum /
                (successful_results.length : ℚ) }

/-- Embeds `parse_fulltest_result`: `None` when `benchmark/summary.json` is
missing or fails to decode, and also when `summary/performance_metrics.json`
exists but fails to decode (the exception escapes the same `try` block);
otherwise the canonical record is assembled with `dict.get` defaults, the
nanosecond processing time divided by 10^9, and the two markdown phases. -/
def parse_fulltest_result (result_dir : Entry) : Option FullTestResult :=
  match result_dir.benchmark with
  | .missing => none
  | .malformed => none
  | .ok bench_data =>
    if result_dir.metrics = Decoded.malformed then none
    else
      let base : FullTestResult :=
        { name := result_dir.name
          model := bench_data.model.getD "Unknown"
          started_at := bench_data.started_at.getD ""
          wall_time_ms := bench_data.wall_time_ms.getD 0
          total_requests := bench_data.total_requests.getD 0
          success := bench_data.success.getD 0
          failure := bench_data.failure.getD 0
          success_rate := bench_data.success_rate.getD 0
          avg_ttft_ms := bench_data.avg_ttft_ms.getD 0
          p50_ttft_ms := bench_data.p50_ttft_ms.getD 0
          p95_ttft_ms := bench_data.p95_ttft_ms.getD 0
          p99_ttft_ms := bench_data.p99_ttft_ms.getD 0
          avg_latency_ms := bench_data.avg_latency_ms.getD 0
          p50_latency_ms := bench_data.p50_latency_ms.getD 0
          p95_latency_ms := bench_data.p95_latency_ms.getD 0
          p99_latency_ms := bench_data.p99_latency_ms.getD 0
          token_throughput := bench_data.token_throughput.getD 0
          rps := bench_data.rps.getD 0
          ttft_distribution := bench_data.ttft_distribution_ms.getD []
          latency_distribution := bench_data.latency_distribution_ms.getD [] }
      let withSummary : FullTestResult :=
        match result_dir.metrics with
        | .ok summary_data =>
          { base with
              summary_total_chunks := summary_data.total_chunks.getD 0
              summary_total_tokens := summary_data.total_tokens.getD 0
              summary_prompt_tokens := summary_data.total_prompt_tokens.getD 0
              summary_completion_tokens :=
                summary_data.total_completion_tokens.getD 0
              summary_processing_time_sec :=
                ((summary_data.total_processing_time.getD 0 : ℤ) : ℚ) /
                  1000000000
              summary_tokens_per_second :=
                summary_data.tokens_per_second.getD 0 }
        | _ => base
      let fc_data := parse_function_call_from_md result_dir.report
      let lc_data := parse_long_context_from_md result_dir.report
      some
        { withSummary with
            fc_supported := fc_data.supported
            fc_function_name := fc_data.function_name
            fc_arguments := fc_data.arguments
            fc_latency_ms := fc_data.latency_ms
            lc_max_supported := lc_data.max_supported
            lc_avg_ttft_ms := lc_data.avg_ttft_ms
            lc_avg_latency_ms := lc_data.avg_latency_ms
            lc_avg_throughput := lc_data.avg_throughput
            lc_results := lc_data.results }

/-- The collection loop of `main`: parse each directory, keep the successes
in order. -/
def collectResults (result_dirs : List Entry) : List FullTestResult :=
  result_dirs.filterMap parse_fulltest_result

/-- How a run of `main` ends: abort because the scanner returned no
directories, abort because no directory parsed, or produce the report. The
first two both exit with code 1. -/
inductive RunOutcome where
  | noResultsFound
  | noParsedResults
  | report (results : List FullTestResult)
deriving DecidableEq

/-- Embeds the batch-level control flow of `main`: scan, exit 1 on an empty
directory list, parse every directory, exit 1 on an empty record list,
otherwise generate the report. -/
def mainRun (fs : OutputDir) (pattern : Option String) : RunOutcome :=
  let result_dirs := (find_fulltest_dirs fs pattern).1
  if result_dirs.isEmpty then RunOutcome.noResultsFound
  else
    let results := collectResults result_dirs
    if results.isEmpty then RunOutcome.noParsedResults
    else RunOutcome.report results

/-- Python's `max(...)` on a nonempty list of rationals (the empty case is
unreachable: `create_radar_chart` returns early on an empty batch). -/
def pyMaxQ : List ℚ → ℚ
  | [] => 0
  | x :: xs => xs.foldl max x

/-- Python's `... or 1` applied to a number: 0 is falsy and becomes 1. -/
def orOne (q : ℚ) : ℚ :=
  if q = 0 then 1 else q

/-- The six per-record scores of the radar chart. -/
structure RadarScores where
  ttft_score : ℚ
  latency_score : ℚ
  throughput_score : ℚ
  rps_score : ℚ
  success_score : ℚ
  summary_score : ℚ
deriving DecidableEq

/-- Embeds the score computation of `create_radar_chart` for one record `r`
of the batch `results`: each batch maximum is computed once with `max(...)
or 1`, TTFT and latency are inverted so higher is better, the three
higher-is-better metrics are scaled by their maximum, and the success rate
is scaled directly. -/
def create_radar_chart_scores (results : List FullTestResult)
    (r : FullTestResult) : RadarScores :=
  let max_ttft := orOne (pyMaxQ (results.map (fun x => x.avg_ttft_ms)))
  let max_latency := orOne (pyMaxQ (results.map (fun x => x.avg_latency_ms)))
  let max_throughput :=
    orOne (pyMaxQ (results.map (fun x => x.token_throughput)))
  let max_rps := orOne (pyMaxQ (results.map (fun x => x.rps)))
  let max_summary_tps :=
    orOne (pyMaxQ (results.map (fun x => x.summary_tokens_per_second)))
  { ttft_score :=
      if 0 < max_ttft then (1 - r.avg_ttft_ms / max_ttft) * 100 else 0
    latency_score :=
      if 0 < max_latency then (1 - r.avg_latency_ms / max_latency) * 100
      else 0
    throughput_score :=
      if 0 < max_throughput then r.token_throughput / max_throughput * 100
      else 0
    rps_score := if 0 < max_rps then r.rps / max_rps * 100 else 0
    success_score := r.success_rate * 100
    summary_score :=
      if 0 < max_summary_tps then
        r.summary_tokens_per_second / max_summary_tps * 100
      else 0 }

/-! ## Helper lemmas -/

theorem LcRowText.isSuccess_eq (t : LcRowText) :
    t.isSuccess = decide (t.glyph = Glyph.check) := rfl

theorem decide_glyph_check : (decide (Glyph.check = Glyph.check)) = true := rfl

theorem decide_glyph_cross : (decide (Glyph.cross = Glyph.check)) = false := rfl

theorem foldl_max_le (l : List ℚ) (a : ℚ) : a ≤ l.foldl max a := by
  induction l generalizing a with
  | nil => simp
  | cons x xs ih => exact le_trans (le_max_left a x) (ih (max a x))

theorem foldl_max_ub (l : List ℚ) (a : ℚ) : ∀ x ∈ l, x ≤ l.foldl max a := by
  induction l generalizing a with
  | nil => simp
  | cons y ys ih =>
    intro x hx
    rcases List.mem_cons.mp hx with h | h
    · subst h
      exact le_trans (le_max_right a x) (foldl_max_le ys (max a x))
    · exact ih (max a y) x h

theorem foldl_max_mem (l : List ℚ) (a : ℚ) :
    l.foldl max a = a ∨ l.foldl max a ∈ l := by
  induction l generalizing a with
  | nil => simp
  | cons y ys ih =>
    rw [List.foldl_cons]
    rcases ih (max a y) with h | h
    · rcases max_cases a y with ⟨hm, _⟩ | ⟨hm, _⟩
      · left
        rw [h, hm]
      · right
        rw [h, hm]
        exact List.mem_cons_self y ys
    · right
      exact List.mem_cons_of_mem y h

theorem pyMaxQ_mem (l : List ℚ) (h : l ≠ []) : pyMaxQ l ∈ l := by
  cases l with
  | nil => exact absurd rfl h
  | cons x xs =>
    rcases foldl_max_mem xs x with h2 | h2
    · rw [pyMaxQ, h2]
      exact List.mem_cons_self x xs
    · exact List.mem_cons_of_mem x h2

theorem pyMaxQ_ub (l : List ℚ) : ∀ x ∈ l, x ≤ pyMaxQ l := by
  cases l with
  | nil => simp
  | cons y ys =>
    intro x hx
    rcases List.mem_cons.mp hx with h | h
    · subst h
      exact foldl_max_le ys x
    · exact foldl_max_ub ys y x h

theorem pyMaxQ_eq_of_isMax (l : List ℚ) (M : ℚ) (hmem : M ∈ l)
    (hub : ∀ x ∈ l, x ≤ M) : pyMaxQ l = M :=
  le_antisymm (hub _ (pyMaxQ_mem l (List.ne_nil_of_mem hmem)))
    (pyMaxQ_ub l M hmem)

theorem pyMaxQ_of_all_zero (l : List ℚ) (h : l ≠ []) (h0 : ∀ x ∈ l, x = 0) :
    pyMaxQ l = 0 :=
  h0 _ (pyMaxQ_mem l h)

theorem lcfold_le (l : List LcRow) (acc : ℕ) :
    acc ≤ l.foldl
      (fun a row => if row.success then max a row.context_length else a) acc := by
  induction l generalizing acc with
  | nil => simp
  | cons y ys ih =>
    cases hy : y.success with
    | true =>
      simp only [List.foldl_cons, hy, if_true]
      exact le_trans (le_max_left acc y.context_length) (ih _)
    | false =>
      simp only [List.foldl_cons, hy, Bool.false_eq_true, if_false]
      exact ih _

theorem lcfold_ub (l : List LcRow) (acc : ℕ) :
    ∀ row ∈ l, row.success = true → row.context_length ≤
      l.foldl
        (fun a row => if row.success then max a row.context_length else a)
        acc := by
  induction l generalizing acc with
  | nil => simp
  | cons y ys ih =>
    intro row hrow hs
    rcases List.mem_cons.mp hrow with h | h
    · subst h
      simp only [List.foldl_cons, hs, if_true]
      exact le_trans (le_max_right acc row.context_length) (lcfold_le ys _)
    · simp only [List.foldl_cons]
      exact ih _ row h hs

theorem lcfold_attain (l : List LcRow) (acc : ℕ) :
    l.foldl
        (fun a row => if row.success then max a row.context_length else a)
        acc = acc
    ∨ ∃ row ∈ l, row.success = true ∧ row.context_length =
        l.foldl
          (fun a row => if row.success then max a row.context_length else a)
          acc := by
  induction l generalizing acc with
  | nil => simp
  | cons y ys ih =>
    cases hy : y.success with
    | false =>
      simp only [List.foldl_cons, hy, Bool.false_eq_true, if_false]
      rcases ih acc with h | ⟨row, hrow, hs, hcl⟩
      · exact Or.inl h
      · exact Or.inr ⟨row, List.mem_cons_of_mem y hrow, hs, hcl⟩
    | true =>
      simp only [List.foldl_cons, hy, if_true]
      rcases ih (max acc y.context_length) with h | ⟨row, hrow, hs, hcl⟩
      · rcases max_cases acc y.context_length with ⟨hm, _⟩ | ⟨hm, _⟩
        · exact Or.inl (by rw [h, hm])
        · exact Or.inr ⟨y, List.mem_cons_self y ys, hy, by rw [h, hm]⟩
      · exact Or.inr ⟨row, List.mem_cons_of_mem y hrow, hs, hcl⟩

theorem length_filterMap_add_countP_isNone {α β : Type} (f : α → Option β)
    (l : List α) :
    (l.filterMap f).length + l.countP (fun x => (f x).isNone) = l.length := by
  induction l with
  | nil => simp
  | cons a l ih =>
    cases hfa : f a <;>
      simp [List.filterMap_cons, List.countP_cons, hfa] <;>
      omega

/-! ## Concrete inputs used by examples, counterexamples and witnesses -/

/-- Record with average TTFT 100 ms, all other metrics zero. -/
def ttftRec1 : FullTestResult := { name := "m1", avg_ttft_ms := 100 }

/-- Record with average TTFT 200 ms, all other metrics zero. -/
def ttftRec2 : FullTestResult := { name := "m2", avg_ttft_ms := 200 }

/-- Record with average TTFT 300 ms, all other metrics zero. -/
def ttftRec3 : FullTestResult := { name := "m3", avg_ttft_ms := 300 }

/-- Record whose every metric is zero. -/
def zeroRec : FullTestResult := { name := "z" }

/-- The successful example row (1000, 700, 123.45, 456.78, 12.34, success). -/
def exRow1 : LcRowText :=
  { context_length := 1000, input_tokens := 700, ttft_ms := 12345/100
    latency_ms := 45678/100, throughput := 1234/100, glyph := Glyph.check }

/-- The failed example row (2000, 1400, 150.00, 500.00, 10.00, failure). -/
def exRow2 : LcRowText :=
  { context_length := 2000, input_tokens := 1400, ttft_ms := 150
    latency_ms := 500, throughput := 10, glyph := Glyph.cross }

/-- Narrative report holding exactly the two example rows and no summary
line. -/
def exMd : MdReport :=
  { lc_section := some { rows := [exRow1, exRow2], summary_line := none } }

/-- Narrative report with one parseable successful row of context length
1000 and a summary line declaring a maximum of 32000. -/
def overrideMd : MdReport :=
  { lc_section := some
      { rows := [exRow1]
        summary_line := some
          { max_supported := 32000, avg_ttft_ms := 5, avg_throughput := 7 } } }

/-- A root location that does not exist. -/
def fsMissingRoot : OutputDir := { rootExists := false, entries := [] }

/-- An existing root location with no qualifying candidate. -/
def fsEmptyRoot : OutputDir := { rootExists := true, entries := [] }

/-- An existing root with qualifying and non-qualifying children. -/
def fsSample : OutputDir :=
  { rootExists := true
    entries :=
      [ { name := "b_dir", benchmark := .ok {} }
      , { name := "a_dir", benchmark := .ok {} }
      , { name := "c_file", isDir := false, benchmark := .ok {} }
      , { name := "d_nosummary", benchmark := .missing } ] }

/-- A candidate whose mandatory artifact exists but fails to decode. -/
def malformedBenchEntry : Entry := { name := "bad", benchmark := .malformed }

/-- A candidate with a decoded mandatory artifact and no narrative file. -/
def noReportEntry : Entry :=
  { name := "plain", benchmark := .ok {}, metrics := .missing, report := none }

/-- A candidate whose mandatory artifact decodes but whose optional
summarization artifact exists and fails to decode. -/
def badMetricsEntry : Entry :=
  { name := "badmetrics", benchmark := .ok {}, metrics := .malformed }

/-! ## Claim theorems -/

/-- C1: for every batch with at least one parsed record, the radar-chart
normalizer scores each record by responsiveness = (1 - avg TTFT / batch max
avg TTFT) * 100 and generation speed = (1 - avg latency / batch max avg
latency) * 100, throughput / request rate / summarization rate = (value /
batch max) * 100, and success rate = success rate * 100 directly, where each
batch maximum is taken once over all records, whenever the respective batch
maximum is positive. -/
theorem C1_radar_score_formulas (results : List FullTestResult)
    (r : FullTestResult) (hr : r ∈ results)
    (Mttft Mlat Mthr Mrps Mstps : ℚ)
    (h1m : Mttft ∈ results.map (fun x => x.avg_ttft_ms))
    (h1u : ∀ v ∈ results.map (fun x => x.avg_ttft_ms), v ≤ Mttft)
    (h2m : Mlat ∈ results.map (fun x => x.avg_latency_ms))
    (h2u : ∀ v ∈ results.map (fun x => x.avg_latency_ms), v ≤ Mlat)
    (h3m : Mthr ∈ results.map (fun x => x.token_throughput))
    (h3u : ∀ v ∈ results.map (fun x => x.token_throughput), v ≤ Mthr)
    (h4m : Mrps ∈ results.map (fun x => x.rps))
    (h4u : ∀ v ∈ results.map (fun x => x.rps), v ≤ Mrps)
    (h5m : Mstps ∈ results.map (fun x => x.summary_tokens_per_second))
    (h5u : ∀ v ∈ results.map (fun x => x.summary_tokens_per_second),
      v ≤ Mstps) :
    (0 < Mttft →
      (create_radar_chart_scores results r).ttft_score
        = (1 - r.avg_ttft_ms / Mttft) * 100)
    ∧ (0 < Mlat →
      (create_radar_chart_scores results r).latency_score
        = (1 - r.avg_latency_ms / Mlat) * 100)
    ∧ (0 < Mthr →
      (create_radar_chart_scores results r).throughput_score
        = r.token_throughput / Mthr * 100)
    ∧ (0 < Mrps →
      (create_radar_chart_scores results r).rps_score = r.rps / Mrps * 100)
    ∧ (0 < Mstps →
      (create_radar_chart_scores results r).summary_score
        = r.summary_tokens_per_second / Mstps * 100)
    ∧ (create_radar_chart_scores results r).success_score
        = r.success_rate * 100 := by
  have e1 : pyMaxQ (results.map (fun x => x.avg_ttft_ms)) = Mttft :=
    pyMaxQ_eq_of_isMax _ _ h1m h1u
  have e2 : pyMaxQ (results.map (fun x => x.avg_latency_ms)) = Mlat :=
    pyMaxQ_eq_of_isMax _ _ h2m h2u
  have e3 : pyMaxQ (results.map (fun x => x.token_throughput)) = Mthr :=
    pyMaxQ_eq_of_isMax _ _ h3m h3u
  have e4 : pyMaxQ (results.map (fun x => x.rps)) = Mrps :=
    pyMaxQ_eq_of_isMax _ _ h4m h4u
  have e5 : pyMaxQ (results.map (fun x => x.summary_tokens_per_second))
      = Mstps :=
    pyMaxQ_eq_of_isMax _ _ h5m h5u
  simp only [create_radar_chart_scores, e1, e2, e3, e4, e5, orOne]
  refine ⟨?_, ?_, ?_, ?_, ?_, trivial⟩ <;>
    · intro h
      rw [if_neg h.ne', if_pos h]

/-- Witness for C1 at the concrete batch with average TTFT values 100, 200,
300 (all other metrics zero, so their maxima are 0). -/
theorem C1_radar_score_formulas_witness :
    (create_radar_chart_scores [ttftRec1, ttftRec2, ttftRec3]
        ttftRec1).ttft_score
      = (1 - ttftRec1.avg_ttft_ms / 300) * 100 := by
  refine (C1_radar_score_formulas [ttftRec1, ttftRec2, ttftRec3] ttftRec1
      (by simp) 300 0 0 0 0 ?_ ?_ ?_ ?_ ?_ ?_ ?_ ?_ ?_ ?_).1 (by norm_num)
  all_goals norm_num [ttftRec1, ttftRec2, ttftRec3]

/-- C2 counterexample: on the batch with average TTFT values 100, 200, 300,
the normalizer does not assign responsiveness scores 100, 50, 0. -/
theorem C2_counterexample :
    ¬ ((create_radar_chart_scores [ttftRec1, ttftRec2, ttftRec3]
          ttftRec1).ttft_score = 100
      ∧ (create_radar_chart_scores [ttftRec1, ttftRec2, ttftRec3]
          ttftRec2).ttft_score = 50
      ∧ (create_radar_chart_scores [ttftRec1, ttftRec2, ttftRec3]
          ttftRec3).ttft_score = 0) := by
  intro h
  have h1 := h.1
  norm_num [create_radar_chart_scores, pyMaxQ, orOne, ttftRec1, ttftRec2,
    ttftRec3] at h1

/-- C2 amended: for a batch of exactly three records whose average TTFT
values are 100, 200 and 300 (all other inputs equal), the normalizer assigns
them responsiveness scores 200/3, 100/3 and 0 respectively, by the
lower-is-better inversion (1 - value / 300) * 100. -/
theorem C2_amended_scores :
    (create_radar_chart_scores [ttftRec1, ttftRec2, ttftRec3]
        ttftRec1).ttft_score = 200/3
    ∧ (create_radar_chart_scores [ttftRec1, ttftRec2, ttftRec3]
        ttftRec2).ttft_score = 100/3
    ∧ (create_radar_chart_scores [ttftRec1, ttftRec2, ttftRec3]
        ttftRec3).ttft_score = 0 := by
  refine ⟨?_, ?_, ?_⟩ <;>
    norm_num [create_radar_chart_scores, pyMaxQ, orOne, ttftRec1, ttftRec2,
      ttftRec3]

/-- C3 counterexample: in a batch whose every record has average TTFT 0, the
batch maximum of the responsiveness category is zero, yet the record scores
100 in it rather than 0. -/
theorem C3_counterexample :
    (∀ x ∈ [zeroRec], x.avg_ttft_ms = 0)
    ∧ (create_radar_chart_scores [zeroRec] zeroRec).ttft_score = 100
    ∧ (create_radar_chart_scores [zeroRec] zeroRec).ttft_score ≠ 0 := by
  refine ⟨?_, ?_, ?_⟩ <;>
    norm_num [create_radar_chart_scores, pyMaxQ, orOne, zeroRec]

/-- C3 amended: whenever the batch maximum of a category is zero (every
record has input 0 there), the divisor is treated as 1, yielding score 0 for
the higher-is-better categories (throughput, request rate, summarization
rate) and score 100 for the lower-is-better ones (responsiveness, generation
speed); the success-rate score is the rate times 100, hence 0 at rate 0. -/
theorem C3_amended_zero_max (results : List FullTestResult)
    (r : FullTestResult) (hr : r ∈ results) :
    ((∀ x ∈ results, x.avg_ttft_ms = 0) →
      (create_radar_chart_scores results r).ttft_score = 100)
    ∧ ((∀ x ∈ results, x.avg_latency_ms = 0) →
      (create_radar_chart_scores results r).latency_score = 100)
    ∧ ((∀ x ∈ results, x.token_throughput = 0) →
      (create_radar_chart_scores results r).throughput_score = 0)
    ∧ ((∀ x ∈ results, x.rps = 0) →
      (create_radar_chart_scores results r).rps_score = 0)
    ∧ ((∀ x ∈ results, x.summary_tokens_per_second = 0) →
      (create_radar_chart_scores results r).summary_score = 0)
    ∧ (r.success_rate = 0 →
      (create_radar_chart_scores results r).success_score = 0) := by
  have hne : results ≠ [] := List.ne_nil_of_mem hr
  refine ⟨?_, ?_, ?_, ?_, ?_, ?_⟩
  · intro hz
    have hmax : pyMaxQ (results.map (fun x => x.avg_ttft_ms)) = 0 :=
      pyMaxQ_of_all_zero _ (fun hm => hne (List.map_eq_nil_iff.mp hm))
        (fun v hv => by
          rcases List.mem_map.mp hv with ⟨x, hx, rfl⟩
          exact hz x hx)
    have h0 : r.avg_ttft_ms = 0 := hz r hr
    norm_num [create_radar_chart_scores, hmax, orOne, h0]
  · intro hz
    have hmax : pyMaxQ (results.map (fun x => x.avg_latency_ms)) = 0 :=
      pyMaxQ_of_all_zero _ (fun hm => hne (List.map_eq_nil_iff.mp hm))
        (fun v hv => by
          rcases List.mem_map.mp hv with ⟨x, hx, rfl⟩
          exact hz x hx)
    have h0 : r.avg_latency_ms = 0 := hz r hr
    norm_num [create_radar_chart_scores, hmax, orOne, h0]
  · intro hz
    have hmax : pyMaxQ (results.map (fun x => x.token_throughput)) = 0 :=
      pyMaxQ_of_all_zero _ (fun hm => hne (List.map_eq_nil_iff.mp hm))
        (fun v hv => by
          rcases List.mem_map.mp hv with ⟨x, hx, rfl⟩
          exact hz x hx)
    have h0 : r.token_throughput = 0 := hz r hr
    norm_num [create_radar_chart_scores, hmax, orOne, h0]
  · intro hz
    have hmax : pyMaxQ (results.map (fun x => x.rps)) = 0 :=
      pyMaxQ_of_all_zero _ (fun hm => hne (List.map_eq_nil_iff.mp hm))
        (fun v hv => by
          rcases List.mem_map.mp hv with ⟨x, hx, rfl⟩
          exact hz x hx)
    have h0 : r.rps = 0 := hz r hr
    norm_num [create_radar_chart_scores, hmax, orOne, h0]
  · intro hz
    have hmax : pyMaxQ
        (results.map (fun x => x.summary_tokens_per_second)) = 0 :=
      pyMaxQ_of_all_zero _ (fun hm => hne (List.map_eq_nil_iff.mp hm))
        (fun v hv => by
          rcases List.mem_map.mp hv with ⟨x, hx, rfl⟩
          exact hz x hx)
    have h0 : r.summary_tokens_per_second = 0 := hz r hr
    norm_num [create_radar_chart_scores, hmax, orOne, h0]
  · intro h0
    norm_num [create_radar_chart_scores, h0]

/-- Witness for C3 amended at the single-record all-zero batch. -/
theorem C3_amended_zero_max_witness :
    (create_radar_chart_scores [zeroRec] zeroRec).ttft_score = 100 :=
  (C3_amended_zero_max [zeroRec] zeroRec (List.mem_cons_self _ _)).1
    (by simp [zeroRec])

theorem filter_success_map_toRow (l : List LcRowText) :
    (l.map LcRowText.toRow).filter (fun row => row.success)
      = (l.filter (fun t => t.isSuccess)).map LcRowText.toRow := by
  induction l with
  | nil => rfl
  | cons t ts ih =>
    simp only [List.map_cons, List.filter_cons]
    rw [show (LcRowText.toRow t).success = t.isSuccess from rfl]
    cases hs : t.isSuccess <;> simp [hs, ih]

/-- C4 counterexample: a narrative report whose long-context section has one
parseable successful row of context length 1000 and a summary line declaring
32000 ends with maximum 32000 — the declared value overrides the row-derived
one even though rows were parseable. -/
theorem C4_counterexample :
    overrideMd.lc_section = some
      { rows := [exRow1]
        summary_line := some
          { max_supported := 32000, avg_ttft_ms := 5, avg_throughput := 7 } }
    ∧ exRow1.isSuccess = true
    ∧ exRow1.context_length = 1000
    ∧ (parse_long_context_from_md (some overrideMd)).max_supported = 32000
    ∧ (32000 : ℕ) ≠ 1000 := by
  refine ⟨rfl, rfl, rfl, ?_, by norm_num⟩
  norm_num [parse_long_context_from_md, overrideMd, exRow1, LcRowText.toRow,
    LcRowText.isSuccess_eq, decide_glyph_check]

/-- C4 amended: for every narrative report containing a long-context
section, when no summary line matches, the maximum supported context length
is the largest context length among rows whose success glyph is the positive
variant (an upper bound that is 0 or attained by a successful row); when the
summary line matches, its declared value overrides the row-derived value
unconditionally, whether or not rows were parseable. -/
theorem C4_amended_max_supported (content : MdReport) (sec : LcSection)
    (h : content.lc_section = some sec) :
    (sec.summary_line = none →
      (∀ t ∈ sec.rows, t.isSuccess = true →
        t.context_length
          ≤ (parse_long_context_from_md (some content)).max_supported)
      ∧ ((parse_long_context_from_md (some content)).max_supported = 0
        ∨ ∃ t ∈ sec.rows, t.isSuccess = true ∧ t.context_length
            = (parse_long_context_from_md (some content)).max_supported))
    ∧ (∀ s, sec.summary_line = some s →
      (parse_long_context_from_md (some content)).max_supported
        = s.max_supported) := by
  constructor
  · intro hsl
    have hM : (parse_long_context_from_md (some content)).max_supported
        = (sec.rows.map LcRowText.toRow).foldl
            (fun acc row =>
              if row.success then max acc row.context_length else acc) 0 := by
      simp only [parse_long_context_from_md, h, hsl]
      split <;> rfl
    rw [hM]
    constructor
    · intro t ht hs
      exact lcfold_ub _ 0 t.toRow (List.mem_map_of_mem _ ht) hs
    · rcases lcfold_attain (sec.rows.map LcRowText.toRow) 0 with
        h0 | ⟨row, hrow, hs, hcl⟩
      · exact Or.inl h0
      · rcases List.mem_map.mp hrow with ⟨t, ht, rfl⟩
        exact Or.inr ⟨t, ht, hs, hcl⟩
  · intro s hsl
    simp only [parse_long_context_from_md, h, hsl]
    split <;> rfl

/-- Witness for C4 amended: applying it to the report with one successful
row and a declared maximum of 32000. -/
theorem C4_amended_max_supported_witness :
    (parse_long_context_from_md (some overrideMd)).max_supported = 32000 :=
  (C4_amended_max_supported overrideMd
      { rows := [exRow1]
        summary_line := some
          { max_supported := 32000, avg_ttft_ms := 5, avg_throughput := 7 } }
      rfl).2
    { max_supported := 32000, avg_ttft_ms := 5, avg_throughput := 7 } rfl

/-- C5: for every long-context section with at least one successful row, the
average latency is the arithmetic mean of the latency column over exactly
the successful rows, and it is insensitive to the summary line; on the two
example rows (1000, 700, 123.45, 456.78, 12.34, success) and (2000, 1400,
150.00, 500.00, 10.00, failure) with no summary line, the maximum supported
context length is 1000 and the average latency is 456.78. -/
theorem C5_avg_latency_from_rows (content : MdReport) (sec : LcSection)
    (h : content.lc_section = some sec)
    (hne : sec.rows.filter (fun t => t.isSuccess) ≠ []) :
    (parse_long_context_from_md (some content)).avg_latency_ms
      = ((sec.rows.filter (fun t => t.isSuccess)).map
            (fun t => t.latency_ms)).sum
        / ((sec.rows.filter (fun t => t.isSuccess)).length : ℚ)
    ∧ (∀ sl : Option LcSummaryLine,
        (parse_long_context_from_md
            (some { content with
              lc_section := some { rows := sec.rows, summary_line := sl } })
          ).avg_latency_ms
          = (parse_long_context_from_md (some content)).avg_latency_ms)
    ∧ (parse_long_context_from_md (some exMd)).max_supported = 1000
    ∧ (parse_long_context_from_md (some exMd)).avg_latency_ms
        = 45678/100 := by
  have hfil : (sec.rows.map LcRowText.toRow).filter (fun row => row.success)
      = (sec.rows.filter (fun t => t.isSuccess)).map LcRowText.toRow :=
    filter_success_map_toRow sec.rows
  have hempty : ((sec.rows.map LcRowText.toRow).filter
      (fun row => row.success)).isEmpty = false := by
    rw [hfil]
    cases hq : sec.rows.filter (fun t => t.isSuccess) with
    | nil => exact absurd hq hne
    | cons a as => simp
  refine ⟨?_, ?_, ?_, ?_⟩
  · simp only [parse_long_context_from_md, h, hempty, Bool.false_eq_true,
      if_false]
    rw [hfil, List.map_map, List.length_map]
    rfl
  · intro sl
    simp only [parse_long_context_from_md, h, hempty, Bool.false_eq_true,
      if_false]
  · norm_num [parse_long_context_from_md, exMd, exRow1, exRow2,
      LcRowText.toRow, LcRowText.isSuccess_eq, decide_glyph_check,
      decide_glyph_cross]
  · norm_num [parse_long_context_from_md, exMd, exRow1, exRow2,
      LcRowText.toRow, LcRowText.isSuccess_eq, decide_glyph_check,
      decide_glyph_cross]

/-- Witness for C5 at the two example rows. -/
theorem C5_avg_latency_from_rows_witness :
    (parse_long_context_from_md (some exMd)).max_supported = 1000 :=
  (C5_avg_latency_from_rows exMd
      { rows := [exRow1, exRow2], summary_line := none } rfl
      (by simp [exRow1, exRow2, LcRowText.isSuccess_eq, decide_glyph_check,
        decide_glyph_cross])).2.2.1

theorem Decoded.fileExists_eq_true_iff {α : Type} (d : Decoded α) :
    d.fileExists = true ↔ d ≠ Decoded.missing := by
  cases d <;> simp [Decoded.fileExists]

theorem patternSelects_eq_true_iff (pattern : Option String) (name : String) :
    patternSelects pattern name = true
      ↔ (pattern = none ∨ ∃ pat, pattern = some pat
          ∧ strContainsSub pat name = true) := by
  cases pattern <;> simp [patternSelects]

/-- C6: for every existing root and optional substring filter, the scanner
returns exactly the subdirectories holding `benchmark/summary.json` whose
name contains the substring (all of them when no filter is given), sorted by
name, with no error message; and the empty list, not an error, when no
candidate qualifies. -/
theorem C6_scanner_contract (fs : OutputDir) (pattern : Option String)
    (h : fs.rootExists = true) :
    ((find_fulltest_dirs fs pattern).1).Perm
        (fs.entries.filter (isFulltestDir pattern))
    ∧ List.Pairwise (fun a b : Entry => a.name ≤ b.name)
        (find_fulltest_dirs fs pattern).1
    ∧ (∀ e : Entry, e ∈ (find_fulltest_dirs fs pattern).1 ↔
        (e ∈ fs.entries ∧ e.isDir = true ∧ e.benchmark ≠ Decoded.missing
          ∧ (pattern = none ∨ ∃ pat, pattern = some pat
              ∧ strContainsSub pat e.name = true)))
    ∧ ((∀ e ∈ fs.entries, isFulltestDir pattern e = false) →
        (find_fulltest_dirs fs pattern).1 = [])
    ∧ (find_fulltest_dirs fs pattern).2 = [] := by
  have hfind : find_fulltest_dirs fs pattern
      = ((fs.entries.filter (isFulltestDir pattern)).mergeSort
          (fun a b => decide (a.name ≤ b.name)), []) := by
    simp [find_fulltest_dirs, h]
  have hperm : ((fs.entries.filter (isFulltestDir pattern)).mergeSort
      (fun a b => decide (a.name ≤ b.name))).Perm
        (fs.entries.filter (isFulltestDir pattern)) :=
    List.mergeSort_perm _ _
  refine ⟨?_, ?_, ?_, ?_, ?_⟩
  · rw [hfind]
    exact hperm
  · rw [hfind]
    have hs := @List.sorted_mergeSort Entry
      (fun a b => decide (a.name ≤ b.name))
      (fun a b c hab hbc =>
        decide_eq_true
          (le_trans (of_decide_eq_true hab) (of_decide_eq_true hbc)))
      (fun a b => by
        rcases le_total a.name b.name with hle | hle <;> simp [hle])
      (fs.entries.filter (isFulltestDir pattern))
    exact hs.imp (fun hab => of_decide_eq_true hab)
  · intro e
    rw [hfind]
    simp only [hperm.mem_iff, List.mem_filter, isFulltestDir,
      Bool.and_eq_true, Decoded.fileExists_eq_true_iff,
      patternSelects_eq_true_iff, and_assoc]
  · intro hall
    have hnil : fs.entries.filter (isFulltestDir pattern) = [] := by
      rw [List.filter_eq_nil_iff]
      intro a ha
      simp [hall a ha]
    rw [hfind, hnil]
    rw [hnil] at hperm
    exact hperm.eq_nil
  · rw [hfind]

/-- Witness for C6 at a concrete root with qualifying and non-qualifying
children. -/
theorem C6_scanner_contract_witness :
    (find_fulltest_dirs fsSample none).2 = [] :=
  (C6_scanner_contract fsSample none rfl).2.2.2.2

/-- C7: a candidate whose mandatory artifact exists but fails to decode
parses to `None`; the batch drops exactly that record (record count plus
failure count equals the candidate count) and the records of all other
candidates are unchanged wherever the failing candidate sits. -/
theorem C7_malformed_partial_failure (d : Entry)
    (hmal : d.benchmark = Decoded.malformed) (pre post : List Entry) :
    parse_fulltest_result d = none
    ∧ collectResults (pre ++ d :: post)
        = collectResults pre ++ collectResults post
    ∧ (collectResults (pre ++ d :: post)).length
        + ((pre ++ d :: post).countP
            (fun x => (parse_fulltest_result x).isNone))
        = (pre ++ d :: post).length := by
  have hnone : parse_fulltest_result d = none := by
    simp [parse_fulltest_result, hmal]
  refine ⟨hnone, ?_, length_filterMap_add_countP_isNone _ _⟩
  simp [collectResults, List.filterMap_append, List.filterMap_cons, hnone]

/-- Witness for C7 at a concrete malformed candidate. -/
theorem C7_malformed_partial_failure_witness :
    parse_fulltest_result malformedBenchEntry = none :=
  (C7_malformed_partial_failure malformedBenchEntry rfl [] []).1

/-- C8 counterexample: a missing scan root yields the very same scanner
return (the empty sequence) and the same `main` outcome (the generic
no-results abort) as an existing root with no qualifying candidate — there
is no distinct fatal RootNotFound outcome. -/
theorem C8_counterexample :
    fsMissingRoot.rootExists = false
    ∧ fsEmptyRoot.rootExists = true
    ∧ (find_fulltest_dirs fsMissingRoot none).1
        = (find_fulltest_dirs fsEmptyRoot none).1
    ∧ mainRun fsMissingRoot none = mainRun fsEmptyRoot none
    ∧ mainRun fsMissingRoot none = RunOutcome.noResultsFound := by
  refine ⟨rfl, rfl, ?_, ?_, ?_⟩ <;>
    simp [find_fulltest_dirs, mainRun, fsMissingRoot, fsEmptyRoot,
      collectResults]

/-- C8 amended: when the root does not exist the scanner prints an error
message and returns the empty list, and the run aborts before any parsing
through the generic no-results branch — the same return value and exit as
when the root exists but no candidate qualifies; only the printed diagnostic
differs. -/
theorem C8_amended_missing_root (fs fs2 : OutputDir)
    (pattern : Option String) (h : fs.rootExists = false)
    (h2 : fs2.rootExists = true)
    (h3 : fs2.entries.filter (isFulltestDir pattern) = []) :
    (find_fulltest_dirs fs pattern).1 = []
    ∧ (find_fulltest_dirs fs pattern).2
        = ["Error: Output directory does not exist"]
    ∧ mainRun fs pattern = RunOutcome.noResultsFound
    ∧ (find_fulltest_dirs fs2 pattern).1 = []
    ∧ (find_fulltest_dirs fs2 pattern).2 = []
    ∧ mainRun fs2 pattern = RunOutcome.noResultsFound := by
  have hf : find_fulltest_dirs fs pattern
      = ([], ["Error: Output directory does not exist"]) := by
    simp [find_fulltest_dirs, h]
  have hf2 : find_fulltest_dirs fs2 pattern = ([], []) := by
    simp [find_fulltest_dirs, h2, h3]
  refine ⟨by rw [hf], by rw [hf], ?_, by rw [hf2], by rw [hf2], ?_⟩
  · simp [mainRun, hf]
  · simp [mainRun, hf2]

/-- Witness for C8 amended at the concrete missing and empty roots. -/
theorem C8_amended_missing_root_witness :
    mainRun fsMissingRoot none = RunOutcome.noResultsFound :=
  (C8_amended_missing_root fsMissingRoot fsEmptyRoot none rfl rfl rfl).2.2.1

/-- C9: a candidate that parses successfully and has no narrative report
file gets the function-call defaults (unsupported, empty name and
arguments, zero latency) and the long-context defaults (zero maximum, zero
averages, empty trial sequence). -/
theorem C9_no_narrative_defaults (d : Entry) (b : BenchData)
    (hb : d.benchmark = Decoded.ok b) (hm : d.metrics ≠ Decoded.malformed)
    (hrep : d.report = none) :
    ∃ r, parse_fulltest_result d = some r
      ∧ r.fc_supported = false ∧ r.fc_function_name = ""
      ∧ r.fc_arguments = "" ∧ r.fc_latency_ms = 0
      ∧ r.lc_max_supported = 0 ∧ r.lc_avg_ttft_ms = 0
      ∧ r.lc_avg_latency_ms = 0 ∧ r.lc_avg_throughput = 0
      ∧ r.lc_results = [] := by
  simp only [parse_fulltest_result, hb, if_neg hm, hrep,
    parse_function_call_from_md, parse_long_context_from_md]
  exact ⟨_, rfl, rfl, rfl, rfl, rfl, rfl, rfl, rfl, rfl, rfl⟩

/-- Witness for C9 at a concrete candidate with no narrative file. -/
theorem C9_no_narrative_defaults_witness :
    ∃ r, parse_fulltest_result noReportEntry = some r
      ∧ r.fc_supported = false ∧ r.fc_function_name = ""
      ∧ r.fc_arguments = "" ∧ r.fc_latency_ms = 0
      ∧ r.lc_max_supported = 0 ∧ r.lc_avg_ttft_ms = 0
      ∧ r.lc_avg_latency_ms = 0 ∧ r.lc_avg_throughput = 0
      ∧ r.lc_results = [] :=
  C9_no_narrative_defaults noReportEntry {} rfl (by decide) rfl

/-- C10: a candidate whose mandatory artifact decodes but whose optional
summarization artifact exists and fails to decode is skipped entirely —
the parse yields `None` for the whole candidate. -/
theorem C10_malformed_metrics_skips (d : Entry) (b : BenchData)
    (hb : d.benchmark = Decoded.ok b) (hm : d.metrics = Decoded.malformed) :
    parse_fulltest_result d = none := by
  simp [parse_fulltest_result, hb, hm]

/-- Witness for C10 at a concrete candidate with a malformed summarization
artifact. -/
theorem C10_malformed_metrics_skips_witness :
    parse_fulltest_result badMetricsEntry = none :=
  C10_malformed_metrics_skips badMetricsEntry {} rfl rfl

end CompareReport
